import Mathlib

/-!
Shallow embedding of the vendored `notifier` module
(`src/venv/lib/python3.10/site-packages/notifier/_notifier.py`).

Modelling choices:
* Python callables are identified by a numeric id (`reflection.is_same_callback`
  compares callback identity, so ids model identity); their runtime behaviour
  (whether a callback raises on a given payload, and the truthiness a details
  filter returns for a payload) lives in an `Env` of behaviour functions.
* A weak reference that may have been collected is modelled by the listener
  storing `cb : Option Nat`: `none` means the weak reference resolved to `None`
  (a dead listener).  At registration time the reference always resolves, so
  `register` stores `some id`.
* The notification payload (`details` dictionary) is an association list of
  string pairs.
* Python dicts preserve insertion order; `_topics` is an association list with
  dict-like `get`/`setdefault`/`pop` operations.
* Exceptions are modelled with `Except`; the `threading.Lock` and the
  `futurist.SynchronousExecutor` carry no data, so they are modelled as opaque
  numeric tokens (fresh ones are supplied on `__setstate__`).
-/

/-- The notification payload (`details` dictionary): a key/value mapping. -/
abbrev Details := List (String × String)

/-- Modelled from the spec: the reserved wildcard identifier
(`notifier._constants.ANY`; the `_constants` module is not under `src/`).
The claims depend only on it being one distinguished token. -/
def ANY : String := "*"

/-- `Notifier.RESERVED_KEYS = ('details',)` (line 219). -/
def RESERVED_KEYS : List String := ["details"]

/-- `Notifier.DISALLOWED_NOTIFICATION_EVENTS = frozenset([ANY])` (line 225). -/
def DISALLOWED_NOTIFICATION_EVENTS : List String := [ANY]

/-- An argument passed where a callback is expected: a Python object with an
identity and a flag saying whether `six.callable` accepts it. -/
structure CbArg where
  id : Nat
  callable : Bool
deriving DecidableEq

/-- `reflection.is_same_callback`: identity comparison of two callables. -/
def is_same_callback (a b : Nat) : Bool := a == b

/-- `Listener` (lines 53-204): an immutable record for one subscription.
`cb` is the current resolution of the stored reference (`self.callback`
property): `none` models a collected weak reference. -/
structure Listener where
  uuid : Nat
  cb : Option Nat
  weak : Bool
  args : List String
  kwargs : List (String × String)
  details_filter : Option Nat
deriving DecidableEq

/-- `Listener.callback` property (lines 90-100): resolves the stored
reference (already resolved in the model). -/
def Listener.callback (l : Listener) : Option Nat := l.cb

/-- `Listener.dead` property (lines 112-125). -/
def Listener.dead (l : Listener) : Bool :=
  if !l.weak then false
  else (l.cb).isNone

/-- Tail of `Listener.is_equivalent` (lines 184-191): compare details filters. -/
def Listener.filters_equivalent (l : Listener) (details_filter : Option Nat) : Bool :=
  match details_filter with
  | some df =>
    match l.details_filter with
    | none => false
    | some lf => is_same_callback lf df
  | none => l.details_filter == none

/-- `Listener.is_equivalent` (lines 168-191). -/
def Listener.is_equivalent (l : Listener) (callback : Option Nat)
    (details_filter : Option Nat) : Bool :=
  match l.callback, callback with
  | none, some _ => false
  | some _, none => false
  | some c, some c2 =>
    if !is_same_callback c c2 then false
    else l.filters_equivalent details_filter
  | none, none => l.filters_equivalent details_filter

/-- Behaviour environment: `cbOk c d` is true when callback `c` returns
normally (rather than raising) on payload `d`; `filt f d` is the truthiness
of the value details filter `f` returns on payload `d`. -/
structure Env where
  cbOk : Nat → Details → Bool
  filt : Nat → Details → Bool

/-- Outcome of `Listener.__call__` (lines 137-152): the callback may be dead
(returns without calling), the details filter may reject the payload
(returns without calling), or the callback is invoked and either returns
normally or raises. -/
inductive CallOutcome
  | dead
  | filtered
  | ok
  | raised
deriving DecidableEq

/-- Whether the target callback was actually invoked. -/
def CallOutcome.invoked : CallOutcome → Bool
  | .ok => true
  | .raised => true
  | .dead => false
  | .filtered => false

/-- `Listener.__call__` (lines 137-152). -/
def Listener.call (l : Listener) (env : Env) (details : Details) : CallOutcome :=
  match l.callback with
  | none => .dead
  | some c =>
    match l.details_filter with
    | some f =>
      if !(env.filt f details) then .filtered
      else if env.cbOk c details then .ok else .raised
    | none => if env.cbOk c details then .ok else .raised

/-- `self._topics`: a dict from event type to a list of listeners, modelled
as an insertion-ordered association list. -/
abbrev Topics := List (String × List Listener)

/-- `self._topics.get(event_type, [])`: first-match lookup with default. -/
def topics_get (t : Topics) (e : String) : List Listener :=
  match t with
  | [] => []
  | p :: rest => if p.1 == e then p.2 else topics_get rest e

/-- Whether the dict has the key. -/
def topics_has (t : Topics) (e : String) : Bool :=
  t.any (fun p => p.1 == e)

/-- In-place replacement of the list bound to an existing key. -/
def topics_set (t : Topics) (e : String) (ls : List Listener) : Topics :=
  t.map (fun p => if p.1 == e then (p.1, ls) else p)

/-- `self._topics.setdefault(event_type, []).append(listener)`
(lines 385-386). -/
def topics_setdefault_append (t : Topics) (e : String) (l : Listener) : Topics :=
  if topics_has t e then topics_set t e (topics_get t e ++ [l])
  else t ++ [(e, [l])]

/-- `self._topics.pop(event_type, [])`: the key (if any) is removed. -/
def topics_pop (t : Topics) (e : String) : Topics :=
  t.filter (fun p => p.1 != e)

/-- Which class the notifier is: `Notifier` (line 207) or
`RestrictedNotifier` (line 490) with its constructor data
`watchable_events` / `allow_any` (lines 498-501). -/
inductive NotifierKind
  | base
  | restricted (watchable_events : List String) (allow_any : Bool)
deriving DecidableEq

/-- A notifier object.  The `threading.Lock` and the executor carry no
observable data; they are modelled as opaque tokens so that `__getstate__`
excluding them is statable. -/
structure Notifier where
  kind : NotifierKind
  topics : Topics
  lockId : Nat
  executorId : Nat
deriving DecidableEq

/-- `Notifier.can_be_registered` (lines 469-475) and its
`RestrictedNotifier` override (lines 524-532). -/
def Notifier.can_be_registered (n : Notifier) (event_type : String) : Bool :=
  match n.kind with
  | .base => true
  | .restricted w a => w.contains event_type || (event_type == ANY && a)

/-- `Notifier.can_trigger_notification` (lines 477-487). -/
def Notifier.can_trigger_notification (n : Notifier) (event_type : String) : Bool :=
  if DISALLOWED_NOTIFICATION_EVENTS.contains event_type then false else true

/-- `Notifier.is_registered` (lines 267-282). -/
def Notifier.is_registered (n : Notifier) (event_type : String)
    (callback : Option Nat) (details_filter : Option Nat) : Bool :=
  (topics_get n.topics event_type).any
    (fun l => l.is_equivalent callback details_filter)

/-- `Notifier.__len__` (lines 250-265). -/
def Notifier.length (n : Notifier) : Nat :=
  (n.topics.map (fun p => p.2.length)).sum

/-- `_Notified` result triple (line 41). -/
structure Notified where
  total : Nat
  successes : Nat
  failures : Nat
deriving DecidableEq

/-- The sequence of `listener(event_type, details.copy())` outcomes produced
by the dispatch loop, in listener order. -/
def dispatch_outcomes (env : Env) (listeners : List Listener)
    (details : Details) : List CallOutcome :=
  listeners.map (fun l => l.call env details)

/-- `Notifier._do_dispatch` (lines 288-303): every exception raised by a
listener is caught and counted in `call_failures`; the loop always reaches
every listener. -/
def do_dispatch (env : Env) (listeners : List Listener)
    (details : Details) : Notified :=
  let possible_calls := listeners.length
  let call_failures :=
    (dispatch_outcomes env listeners details).countP (fun o => o == .raised)
  ⟨possible_calls, possible_calls - call_failures, call_failures⟩

/-- The snapshot `list(self._topics.get(self.ANY, [])) +
self._topics.get(event_type, [])` built by `notify` (lines 328-329). -/
def Notifier.dispatch_snapshot (n : Notifier) (event_type : String) : List Listener :=
  topics_get n.topics ANY ++ topics_get n.topics event_type

/-- `Notifier.notify` (lines 305-334).  The `SynchronousExecutor` runs the
dispatch inline, so the future resolves immediately to the `_Notified`
triple; the only exception `notify` itself raises is the `ValueError` for a
disallowed trigger event. -/
def Notifier.notify (n : Notifier) (env : Env) (event_type : String)
    (details : Details) : Except Unit Notified :=
  if !(n.can_trigger_notification event_type) then .error ()
  else .ok (do_dispatch env (n.dispatch_snapshot event_type) details)

/-- Errors `Notifier.register` raises: `ValueError` for a bad callback /
filter / event type, `KeyError` for a reserved kwargs key, `ValueError`
for an equivalent listener already present (kept distinct here). -/
inductive RegError
  | invalidArg
  | reservedKey
  | duplicate
deriving DecidableEq

/-- `Notifier.register` (lines 336-387).  `uuid` stands for the freshly
generated `uuidutils.generate_uuid()`.  `_make_ref` resolves to the callback
at creation time whether or not `weak` is set. -/
def Notifier.register (n : Notifier) (event_type : String) (callback : CbArg)
    (args : List String) (kwargs : List (String × String))
    (details_filter : Option CbArg) (weak : Bool) (uuid : Nat) :
    Except RegError (Listener × Notifier) :=
  if !callback.callable then .error .invalidArg
  else if details_filter.any (fun f => !f.callable) then .error .invalidArg
  else if !(n.can_be_registered event_type) then .error .invalidArg
  else if RESERVED_KEYS.any (fun k => kwargs.any (fun p => p.1 == k)) then
    .error .reservedKey
  else if n.is_registered event_type (some callback.id)
      (details_filter.map (fun f => f.id)) then .error .duplicate
  else
    let listener : Listener :=
      { uuid := uuid, cb := some callback.id, weak := weak,
        args := args, kwargs := kwargs,
        details_filter := details_filter.map (fun f => f.id) }
    .ok (listener,
      { n with topics := topics_setdefault_append n.topics event_type listener })

/-- The scan-and-`pop(i)` loop shared by `deregister` (lines 400-407):
remove the first listener equivalent to the pair, or report no match. -/
def listeners_remove_first_equiv (ls : List Listener) (callback : Option Nat)
    (details_filter : Option Nat) : Option (List Listener) :=
  match ls with
  | [] => none
  | l :: rest =>
    if l.is_equivalent callback details_filter then some rest
    else (listeners_remove_first_equiv rest callback details_filter).map
      (fun r => l :: r)

/-- `Notifier.deregister` (lines 389-407). -/
def Notifier.deregister (n : Notifier) (event_type : String)
    (callback : Option Nat) (details_filter : Option Nat) : Bool × Notifier :=
  match listeners_remove_first_equiv (topics_get n.topics event_type)
      callback details_filter with
  | some ls => (true, { n with topics := topics_set n.topics event_type ls })
  | none => (false, n)

/-- The scan-and-`pop(i)` loop of `deregister_by_uuid` (lines 418-424). -/
def listeners_remove_first_uuid (ls : List Listener) (uuid : Nat) :
    Option (List Listener) :=
  match ls with
  | [] => none
  | l :: rest =>
    if l.uuid == uuid then some rest
    else (listeners_remove_first_uuid rest uuid).map (fun r => l :: r)

/-- `Notifier.deregister_by_uuid` (lines 409-424). -/
def Notifier.deregister_by_uuid (n : Notifier) (event_type : String)
    (uuid : Nat) : Bool × Notifier :=
  match listeners_remove_first_uuid (topics_get n.topics event_type) uuid with
  | some ls => (true, { n with topics := topics_set n.topics event_type ls })
  | none => (false, n)

/-- `Notifier.deregister_event` (lines 426-434):
`len(self._topics.pop(event_type, []))`. -/
def Notifier.deregister_event (n : Notifier) (event_type : String) :
    Nat × Notifier :=
  ((topics_get n.topics event_type).length,
    { n with topics := topics_pop n.topics event_type })

/-- `Notifier.reset` (lines 284-286). -/
def Notifier.reset (n : Notifier) : Notifier :=
  { n with topics := [] }

/-- What `__getstate__` captures: the topics dict (lines 239-242), plus the
`RestrictedNotifier` subclass data (lines 503-507).  The lock, logger and
executor are not part of it. -/
structure CapturedState where
  topics : Topics
  restricted_data : Option (List String × Bool)
deriving DecidableEq

/-- `Notifier.__getstate__` / `RestrictedNotifier.__getstate__`. -/
def Notifier.getstate (n : Notifier) : CapturedState :=
  { topics := n.topics,
    restricted_data :=
      match n.kind with
      | .base => none
      | .restricted w a => some (w, a) }

/-- `Notifier.__setstate__` / `RestrictedNotifier.__setstate__`
(lines 244-248 and 509-512): restores the topics (and subclass data) and
creates a fresh lock and a fresh executor, modelled as caller-supplied fresh
tokens. -/
def Notifier.setstate (dct : CapturedState) (fresh_lock fresh_executor : Nat) :
    Notifier :=
  { kind :=
      match dct.restricted_data with
      | none => .base
      | some (w, a) => .restricted w a,
    topics := dct.topics,
    lockId := fresh_lock,
    executorId := fresh_executor }

/-- `register_deregister` context manager (lines 535-556).  The caller's
`with` block is `body`, a state transformer on the notifier that either
returns normally or raises an error of type `E`; the helper's own result
pairs the propagated outcome with the final notifier state. -/
def register_deregister {E : Type} (n : Notifier) (event_type : String)
    (callback : Option CbArg) (args : List String)
    (kwargs : List (String × String)) (details_filter : Option CbArg)
    (weak : Bool) (uuid : Nat) (body : Notifier → Except E Unit × Notifier) :
    Except (Sum RegError E) Unit × Notifier :=
  match callback with
  | none =>
    let r := body n
    (r.1.mapError Sum.inr, r.2)
  | some cb =>
    match n.register event_type cb args kwargs details_filter weak uuid with
    | .error err => (.error (Sum.inl err), n)
    | .ok (_, n1) =>
      let r := body n1
      let d := r.2.deregister event_type (some cb.id)
        (details_filter.map (fun f => f.id))
      (r.1.mapError Sum.inr, d.2)

/-- The listener `register` appends on the success path. -/
def mk_listener (e : String) (cb : CbArg) (args : List String)
    (kwargs : List (String × String)) (df : Option CbArg) (w : Bool)
    (u : Nat) : Listener :=
  { uuid := u, cb := some cb.id, weak := w, args := args, kwargs := kwargs,
    details_filter := df.map (fun f => f.id) }

/-! ### Concrete fixtures used by witnesses and counterexamples -/

/-- A callable callback object. -/
def wCbGood : CbArg := ⟨1, true⟩

/-- A non-callable object passed as callback. -/
def wCbBad : CbArg := ⟨1, false⟩

/-- A second callable callback object. -/
def wCbGood2 : CbArg := ⟨2, true⟩

/-- A callable details filter. -/
def wFilt : CbArg := ⟨5, true⟩

/-- Another callable details filter. -/
def wFilt2 : CbArg := ⟨6, true⟩

/-- Concrete behaviour: callback 7 raises, every other callback returns
normally; a details filter is truthy exactly on a non-empty payload. -/
def wEnv : Env := { cbOk := fun c _ => c != 7, filt := fun _ d => !d.isEmpty }

/-- An empty base notifier. -/
def wNotifier : Notifier := { kind := .base, topics := [], lockId := 0, executorId := 0 }

/-- The listener produced by registering `wCbGood` for event `"boom"`. -/
def wL1 : Listener := mk_listener "boom" wCbGood [] [] none false 10

/-- `wNotifier` after that registration. -/
def wN1 : Notifier :=
  { kind := .base, topics := [("boom", [wL1])], lockId := 0, executorId := 0 }

/-- A dead listener: its weak callback reference has been collected. -/
def wDead : Listener :=
  { uuid := 50, cb := none, weak := true, args := [], kwargs := [],
    details_filter := none }

/-- A listener whose callback (id 7) raises under `wEnv`. -/
def wRaise : Listener :=
  { uuid := 51, cb := some 7, weak := false, args := [], kwargs := [],
    details_filter := none }

/-- A live listener guarded by details filter 5. -/
def wLFiltered : Listener :=
  { uuid := 20, cb := some 3, weak := false, args := [], kwargs := [],
    details_filter := some 5 }

/-- A notifier holding only `wLFiltered` under event `"evt"`. -/
def wNFiltered : Notifier :=
  { kind := .base, topics := [("evt", [wLFiltered])], lockId := 0, executorId := 0 }

/-- A restricted notifier over allow-list `["a", "b"]` with the default
`allow_any = true`. -/
def wRestr : Notifier :=
  { kind := .restricted ["a", "b"] true, topics := [], lockId := 0, executorId := 0 }

/-- Same allow-list with `allow_any = false`. -/
def wRestrNoAny : Notifier :=
  { kind := .restricted ["a", "b"] false, topics := [], lockId := 0, executorId := 0 }

/-- A listener registering `wCbGood` guarded by filter `wFilt`. -/
def wLF1 : Listener := mk_listener "boom" wCbGood [] [] (some wFilt) false 10

/-- `wNotifier` after registering `wCbGood` with filter `wFilt` on `"boom"`. -/
def wNF1 : Notifier :=
  { kind := .base, topics := [("boom", [wLF1])], lockId := 0, executorId := 0 }

/-! ### Association-list (dict) lemmas -/

theorem topics_get_cons (p : String × List Listener) (rest : Topics) (e : String) :
    topics_get (p :: rest) e = if p.1 == e then p.2 else topics_get rest e := rfl

theorem topics_has_cons (p : String × List Listener) (rest : Topics) (e : String) :
    topics_has (p :: rest) e = (p.1 == e || topics_has rest e) := rfl

theorem topics_set_cons (p : String × List Listener) (rest : Topics) (e : String)
    (ls : List Listener) :
    topics_set (p :: rest) e ls
      = (if p.1 == e then (p.1, ls) else p) :: topics_set rest e ls := rfl

theorem topics_get_eq_nil_of_not_has (t : Topics) (e : String)
    (h : topics_has t e = false) : topics_get t e = [] := by
  induction t with
  | nil => rfl
  | cons p rest ih =>
    rw [topics_has_cons] at h
    simp only [Bool.or_eq_false_iff] at h
    rw [topics_get_cons]
    simp [h.1, ih h.2]

theorem topics_get_set_self (t : Topics) (e : String) (ls : List Listener) :
    topics_get (topics_set t e ls) e = if topics_has t e then ls else [] := by
  induction t with
  | nil => rfl
  | cons p rest ih =>
    rw [topics_set_cons, topics_get_cons, topics_has_cons]
    by_cases h : (p.1 == e) = true
    · simp [h]
    · have h0 : (p.1 == e) = false := by simpa using h
      simp [h0, ih]

theorem topics_get_set_other (t : Topics) (e e2 : String) (ls : List Listener)
    (h : e2 ≠ e) :
    topics_get (topics_set t e ls) e2 = topics_get t e2 := by
  induction t with
  | nil => rfl
  | cons p rest ih =>
    rw [topics_set_cons, topics_get_cons, topics_get_cons]
    by_cases h1 : (p.1 == e) = true
    · have he : p.1 = e := by simpa using h1
      have h2 : (p.1 == e2) = false := by
        rw [he]; exact beq_eq_false_iff_ne.mpr (Ne.symm h)
      simp [h1, h2, ih]
    · have h0 : (p.1 == e) = false := by simpa using h1
      by_cases h2 : (p.1 == e2) = true
      · simp [h0, h2]
      · have h2f : (p.1 == e2) = false := by simpa using h2
        simp [h0, h2f, ih]

theorem topics_get_append_new (t : Topics) (e : String) (ls : List Listener)
    (h : topics_has t e = false) :
    topics_get (t ++ [(e, ls)]) e = ls := by
  induction t with
  | nil => simp [topics_get]
  | cons p rest ih =>
    rw [topics_has_cons] at h
    simp only [Bool.or_eq_false_iff] at h
    rw [List.cons_append, topics_get_cons]
    simp [h.1, ih h.2]

theorem topics_get_append_other (t : Topics) (e e2 : String) (ls : List Listener)
    (h : e2 ≠ e) :
    topics_get (t ++ [(e, ls)]) e2 = topics_get t e2 := by
  induction t with
  | nil =>
    have h0 : (e == e2) = false := beq_eq_false_iff_ne.mpr (Ne.symm h)
    simp [topics_get, h0]
  | cons p rest ih =>
    rw [List.cons_append, topics_get_cons, topics_get_cons]
    by_cases h1 : (p.1 == e2) = true
    · simp [h1]
    · have h0 : (p.1 == e2) = false := by simpa using h1
      simp [h0, ih]

theorem topics_get_setdefault_append_self (t : Topics) (e : String) (l : Listener) :
    topics_get (topics_setdefault_append t e l) e = topics_get t e ++ [l] := by
  unfold topics_setdefault_append
  by_cases h : topics_has t e = true
  · simp [h, topics_get_set_self]
  · have h0 : topics_has t e = false := by simpa using h
    rw [if_neg (by simp [h0]), topics_get_append_new t e [l] h0,
      topics_get_eq_nil_of_not_has t e h0]
    rfl

theorem topics_get_setdefault_append_other (t : Topics) (e e2 : String)
    (l : Listener) (h : e2 ≠ e) :
    topics_get (topics_setdefault_append t e l) e2 = topics_get t e2 := by
  unfold topics_setdefault_append
  by_cases h1 : topics_has t e = true
  · simp [h1, topics_get_set_other t e e2 _ h]
  · have h0 : topics_has t e = false := by simpa using h1
    rw [if_neg (by simp [h0])]
    exact topics_get_append_other t e e2 [l] h

theorem topics_pop_cons (p : String × List Listener) (rest : Topics) (e : String) :
    topics_pop (p :: rest) e
      = if p.1 == e then topics_pop rest e else p :: topics_pop rest e := by
  show List.filter _ _ = _
  rw [List.filter_cons]
  by_cases h : (p.1 == e) = true
  · simp [bne, h, topics_pop]
  · have h0 : (p.1 == e) = false := by simpa using h
    simp [bne, h0, topics_pop]

theorem topics_get_pop_other (t : Topics) (e e2 : String) (h : e2 ≠ e) :
    topics_get (topics_pop t e) e2 = topics_get t e2 := by
  induction t with
  | nil => rfl
  | cons p rest ih =>
    rw [topics_pop_cons, topics_get_cons]
    by_cases h1 : (p.1 == e) = true
    · have he : p.1 = e := by simpa using h1
      have h2 : (p.1 == e2) = false := by
        rw [he]; exact beq_eq_false_iff_ne.mpr (Ne.symm h)
      simp [h1, h2, ih]
    · have h0 : (p.1 == e) = false := by simpa using h1
      by_cases h2 : (p.1 == e2) = true
      · simp [h0, h2, topics_get_cons]
      · have h2f : (p.1 == e2) = false := by simpa using h2
        simp [h0, h2f, ih, topics_get_cons]

/-! ### Helper lemmas about `register`, equivalence scans and dispatch -/

theorem option_exists_not_callable_iff (df : Option CbArg) :
    (∃ f, df = some f ∧ f.callable = false)
      ↔ (df.any (fun f => !f.callable) = true) := by
  cases df <;> simp [Option.any]

theorem option_forall_callable_iff (df : Option CbArg) :
    (∀ f, df = some f → f.callable = true)
      ↔ (df.any (fun f => !f.callable) = false) := by
  cases df <;> simp [Option.any]

theorem reserved_any_iff (kwargs : List (String × String)) :
    RESERVED_KEYS.any (fun k => kwargs.any (fun p => p.1 == k))
      = kwargs.any (fun p => p.1 == "details") := by
  simp [RESERVED_KEYS]

theorem register_invalidArg_iff (n : Notifier) (e : String) (cb : CbArg)
    (args : List String) (kwargs : List (String × String)) (df : Option CbArg)
    (w : Bool) (u : Nat) :
    n.register e cb args kwargs df w u = .error .invalidArg ↔
      (cb.callable = false ∨ (∃ f, df = some f ∧ f.callable = false)
        ∨ n.can_be_registered e = false) := by
  unfold Notifier.register
  by_cases h1 : cb.callable = true <;>
  by_cases h2 : df.any (fun f => !f.callable) = true <;>
  by_cases h3 : n.can_be_registered e = true <;>
  by_cases h4 : kwargs.any (fun p => p.1 == "details") = true <;>
  by_cases h5 : n.is_registered e (some cb.id) (df.map (fun f => f.id)) = true <;>
  simp [h1, h2, h3, h4, h5, option_exists_not_callable_iff, reserved_any_iff]

theorem register_reservedKey_iff (n : Notifier) (e : String) (cb : CbArg)
    (args : List String) (kwargs : List (String × String)) (df : Option CbArg)
    (w : Bool) (u : Nat) :
    n.register e cb args kwargs df w u = .error .reservedKey ↔
      (cb.callable = true ∧ (∀ f, df = some f → f.callable = true)
        ∧ n.can_be_registered e = true
        ∧ kwargs.any (fun p => p.1 == "details") = true) := by
  unfold Notifier.register
  by_cases h1 : cb.callable = true <;>
  by_cases h2 : df.any (fun f => !f.callable) = true <;>
  by_cases h3 : n.can_be_registered e = true <;>
  by_cases h4 : kwargs.any (fun p => p.1 == "details") = true <;>
  by_cases h5 : n.is_registered e (some cb.id) (df.map (fun f => f.id)) = true <;>
  simp [h1, h2, h3, h4, h5, option_forall_callable_iff, reserved_any_iff]

theorem register_duplicate_iff (n : Notifier) (e : String) (cb : CbArg)
    (args : List String) (kwargs : List (String × String)) (df : Option CbArg)
    (w : Bool) (u : Nat) :
    n.register e cb args kwargs df w u = .error .duplicate ↔
      (cb.callable = true ∧ (∀ f, df = some f → f.callable = true)
        ∧ n.can_be_registered e = true
        ∧ kwargs.any (fun p => p.1 == "details") = false
        ∧ n.is_registered e (some cb.id) (df.map (fun f => f.id)) = true) := by
  unfold Notifier.register
  by_cases h1 : cb.callable = true <;>
  by_cases h2 : df.any (fun f => !f.callable) = true <;>
  by_cases h3 : n.can_be_registered e = true <;>
  by_cases h4 : kwargs.any (fun p => p.1 == "details") = true <;>
  by_cases h5 : n.is_registered e (some cb.id) (df.map (fun f => f.id)) = true <;>
  simp [h1, h2, h3, h4, h5, option_forall_callable_iff, reserved_any_iff]

theorem register_ok_eq (n : Notifier) (e : String) (cb : CbArg)
    (args : List String) (kwargs : List (String × String)) (df : Option CbArg)
    (w : Bool) (u : Nat)
    (h1 : cb.callable = true)
    (h2 : ∀ f, df = some f → f.callable = true)
    (h3 : n.can_be_registered e = true)
    (h4 : kwargs.any (fun p => p.1 == "details") = false)
    (h5 : n.is_registered e (some cb.id) (df.map (fun f => f.id)) = false) :
    n.register e cb args kwargs df w u =
      .ok (mk_listener e cb args kwargs df w u,
        { n with topics := (topics_setdefault_append n.topics e
            (mk_listener e cb args kwargs df w u)) }) := by
  have h2b : df.any (fun f => !f.callable) = false := by
    cases df with
    | none => rfl
    | some f => simpa [Option.any] using h2 f rfl
  unfold Notifier.register
  simp [h1, h2b, h3, h5, reserved_any_iff, h4, mk_listener]

theorem mk_listener_equivalent (e : String) (cb : CbArg) (args : List String)
    (kwargs : List (String × String)) (df : Option CbArg) (w : Bool) (u : Nat) :
    (mk_listener e cb args kwargs df w u).is_equivalent (some cb.id)
      (df.map (fun f => f.id)) = true := by
  cases df <;>
    simp [mk_listener, Listener.is_equivalent, Listener.callback,
      Listener.filters_equivalent, is_same_callback]

theorem remove_first_equiv_eq_none (ls : List Listener) (cb df : Option Nat)
    (h : ls.any (fun l => l.is_equivalent cb df) = false) :
    listeners_remove_first_equiv ls cb df = none := by
  induction ls with
  | nil => rfl
  | cons l rest ih =>
    simp only [List.any_cons, Bool.or_eq_false_iff] at h
    simp [listeners_remove_first_equiv, h.1, ih h.2]

theorem remove_first_equiv_append (ls : List Listener) (l : Listener)
    (cb df : Option Nat)
    (h : ls.any (fun x => x.is_equivalent cb df) = false)
    (hl : l.is_equivalent cb df = true) :
    listeners_remove_first_equiv (ls ++ [l]) cb df = some ls := by
  induction ls with
  | nil => simp [listeners_remove_first_equiv, hl]
  | cons x rest ih =>
    simp only [List.any_cons, Bool.or_eq_false_iff] at h
    simp [listeners_remove_first_equiv, h.1, ih h.2]

theorem remove_first_uuid_eq_none (ls : List Listener) (u : Nat)
    (h : ∀ l, l ∈ ls → l.uuid ≠ u) :
    listeners_remove_first_uuid ls u = none := by
  induction ls with
  | nil => rfl
  | cons l rest ih =>
    have h1 : (l.uuid == u) = false := by
      exact beq_eq_false_iff_ne.mpr (h l (by simp))
    simp [listeners_remove_first_uuid, h1,
      ih (fun x hx => h x (by simp [hx]))]

theorem topics_has_set (t : Topics) (e e2 : String) (ls : List Listener) :
    topics_has (topics_set t e ls) e2 = topics_has t e2 := by
  induction t with
  | nil => rfl
  | cons p rest ih =>
    rw [topics_set_cons, topics_has_cons, topics_has_cons]
    by_cases h : (p.1 == e) = true
    · simp [h, ih]
    · have h0 : (p.1 == e) = false := by simpa using h
      simp [h0, ih]

theorem topics_has_setdefault_append_self (t : Topics) (e : String) (l : Listener) :
    topics_has (topics_setdefault_append t e l) e = true := by
  unfold topics_setdefault_append
  by_cases h : topics_has t e = true
  · simp [h, topics_has_set]
  · have h0 : topics_has t e = false := by simpa using h
    rw [if_neg (by simp [h0])]
    simp [topics_has]

theorem register_ok_inv (n : Notifier) (e : String) (cb : CbArg)
    (args : List String) (kwargs : List (String × String)) (df : Option CbArg)
    (w : Bool) (u : Nat) (l : Listener) (n2 : Notifier)
    (h : n.register e cb args kwargs df w u = .ok (l, n2)) :
    cb.callable = true
    ∧ (∀ f, df = some f → f.callable = true)
    ∧ n.can_be_registered e = true
    ∧ kwargs.any (fun p => p.1 == "details") = false
    ∧ n.is_registered e (some cb.id) (df.map (fun f => f.id)) = false
    ∧ l = mk_listener e cb args kwargs df w u
    ∧ n2 = { n with topics := (topics_setdefault_append n.topics e l) } := by
  have hni : ¬(n.register e cb args kwargs df w u = .error .invalidArg) := by
    rw [h]; simp
  have hnr : ¬(n.register e cb args kwargs df w u = .error .reservedKey) := by
    rw [h]; simp
  have hnd : ¬(n.register e cb args kwargs df w u = .error .duplicate) := by
    rw [h]; simp
  rw [register_invalidArg_iff] at hni
  have h1 : cb.callable = true := by
    by_contra hcon
    exact hni (Or.inl (by simpa using hcon))
  have h3 : n.can_be_registered e = true := by
    by_contra hcon
    exact hni (Or.inr (Or.inr (by simpa using hcon)))
  have h2 : ∀ f, df = some f → f.callable = true := by
    intro f hf
    by_contra hcon
    exact hni (Or.inr (Or.inl ⟨f, hf, by simpa using hcon⟩))
  rw [register_reservedKey_iff] at hnr
  have h4 : kwargs.any (fun p => p.1 == "details") = false := by
    by_contra hcon
    exact hnr ⟨h1, h2, h3, by simpa using hcon⟩
  rw [register_duplicate_iff] at hnd
  have h5 : n.is_registered e (some cb.id) (df.map (fun f => f.id)) = false := by
    by_contra hcon
    exact hnd ⟨h1, h2, h3, h4, by simpa using hcon⟩
  rw [register_ok_eq n e cb args kwargs df w u h1 h2 h3 h4 h5] at h
  rw [Except.ok.injEq, Prod.mk.injEq] at h
  refine ⟨h1, h2, h3, h4, h5, h.1.symm, ?_⟩
  rw [← h.2, ← h.1]

theorem countP_raised_le_length (outs : List CallOutcome) :
    outs.countP (fun o => o == .raised) ≤ outs.length :=
  List.countP_le_length _

theorem countP_not_raised_split (outs : List CallOutcome) :
    outs.countP (fun o => !(o == .raised))
      = outs.countP (fun o => o == .ok) + outs.countP (fun o => !o.invoked) := by
  induction outs with
  | nil => rfl
  | cons o rest ih =>
    rw [List.countP_cons, List.countP_cons, List.countP_cons, ih]
    cases o <;> simp [CallOutcome.invoked] <;> omega

theorem length_sub_raised (outs : List CallOutcome) :
    outs.length - outs.countP (fun o => o == .raised)
      = outs.countP (fun o => !(o == .raised)) := by
  induction outs with
  | nil => rfl
  | cons o rest ih =>
    have hle := countP_raised_le_length rest
    rw [List.countP_cons, List.countP_cons, List.length_cons]
    cases o <;> simp <;> omega

theorem countP_invoked_split (outs : List CallOutcome) :
    outs.countP (fun o => o.invoked)
      = outs.countP (fun o => o == .ok) + outs.countP (fun o => o == .raised) := by
  induction outs with
  | nil => rfl
  | cons o rest ih =>
    rw [List.countP_cons, List.countP_cons, List.countP_cons, ih]
    cases o <;> simp [CallOutcome.invoked] <;> omega

/-! ### Claim theorems -/

/-- C1: for every notifier state and every permitted `event_type`, `notify`
dispatches over exactly the snapshot consisting of the listeners registered
under the wildcard identifier followed by those registered under
`event_type` (wildcard group first); and `register` always appends the new
listener at the end of its event's sequence, leaving every other event's
sequence unchanged, so each group is held in registration (insertion)
order. -/
theorem C1_notify_dispatch_order (n : Notifier) (env : Env) (e : String)
    (d : Details) (h : n.can_trigger_notification e = true)
    (ev : String) (cb : CbArg) (args : List String)
    (kwargs : List (String × String)) (df : Option CbArg) (w : Bool) (u : Nat)
    (l : Listener) (n2 : Notifier)
    (hreg : n.register ev cb args kwargs df w u = .ok (l, n2)) :
    n.notify env e d
      = .ok (do_dispatch env
          (topics_get n.topics ANY ++ topics_get n.topics e) d)
    ∧ topics_get n2.topics ev = topics_get n.topics ev ++ [l]
    ∧ (∀ ev2, ev2 ≠ ev → topics_get n2.topics ev2 = topics_get n.topics ev2) := by
  obtain ⟨-, -, -, -, -, hl, hn⟩ :=
    register_ok_inv n ev cb args kwargs df w u l n2 hreg
  refine ⟨?_, ?_, ?_⟩
  · unfold Notifier.notify
    simp [h, Notifier.dispatch_snapshot]
  · rw [hn]
    exact topics_get_setdefault_append_self n.topics ev l
  · intro ev2 hne
    rw [hn]
    exact topics_get_setdefault_append_other n.topics ev ev2 l hne

/-- Witness for C1: a concrete empty base notifier, the event `"boom"`, and
a concrete successful registration. -/
theorem C1_notify_dispatch_order_witness :
    wNotifier.notify wEnv "boom" []
      = .ok (do_dispatch wEnv
          (topics_get wNotifier.topics ANY ++ topics_get wNotifier.topics "boom") [])
    ∧ topics_get wN1.topics "boom" = topics_get wNotifier.topics "boom" ++ [wL1]
    ∧ (∀ ev2, ev2 ≠ "boom" →
        topics_get wN1.topics ev2 = topics_get wNotifier.topics ev2) :=
  C1_notify_dispatch_order wNotifier wEnv "boom" [] (by decide)
    "boom" wCbGood [] [] none false 10 wL1 wN1 rfl

/-- C2: for every dispatch over a snapshot of `N` listeners, the failure
count is exactly the number of raising outcomes, the outcome sequence covers
every listener of the snapshot in order (dispatch is never aborted by a
raising listener), the triple satisfies `total = N` and
`total = successes + failures`, and `notify` returns a result (never a
listener exception) for every permitted event type, whatever behaviours
`env` assigns to the callbacks. -/
theorem C2_dispatch_failures (env : Env) (listeners : List Listener)
    (d : Details) (n : Notifier) (e : String) (d2 : Details)
    (h : n.can_trigger_notification e = true) :
    (do_dispatch env listeners d).total = listeners.length
    ∧ (do_dispatch env listeners d).total
        = (do_dispatch env listeners d).successes
          + (do_dispatch env listeners d).failures
    ∧ (do_dispatch env listeners d).failures
        = (dispatch_outcomes env listeners d).countP (fun o => o == .raised)
    ∧ dispatch_outcomes env listeners d = listeners.map (fun l => l.call env d)
    ∧ (∃ r, n.notify env e d2 = .ok r) := by
  have hlen : (dispatch_outcomes env listeners d).length = listeners.length := by
    simp [dispatch_outcomes]
  have hle : (dispatch_outcomes env listeners d).countP (fun o => o == .raised)
      ≤ listeners.length := by
    rw [← hlen]; exact countP_raised_le_length _
  refine ⟨rfl, ?_, rfl, rfl, ?_⟩
  · have ht : (do_dispatch env listeners d).total = listeners.length := rfl
    have hs : (do_dispatch env listeners d).successes
        = listeners.length
          - (dispatch_outcomes env listeners d).countP (fun o => o == .raised) := rfl
    have hf : (do_dispatch env listeners d).failures
        = (dispatch_outcomes env listeners d).countP (fun o => o == .raised) := rfl
    rw [ht, hs, hf]
    omega
  · refine ⟨do_dispatch env (n.dispatch_snapshot e) d2, ?_⟩
    unfold Notifier.notify
    simp [h]

/-- Witness for C2: the concrete snapshot `[wDead, wRaise]` in which the
second listener raises, dispatched for the permitted event `"boom"`. -/
theorem C2_dispatch_failures_witness :
    (do_dispatch wEnv [wDead, wRaise] []).total = 2
    ∧ (do_dispatch wEnv [wDead, wRaise] []).total
        = (do_dispatch wEnv [wDead, wRaise] []).successes
          + (do_dispatch wEnv [wDead, wRaise] []).failures
    ∧ (∃ r, wNotifier.notify wEnv "boom" [] = .ok r) := by
  have h := C2_dispatch_failures wEnv [wDead, wRaise] [] wNotifier "boom" []
    (by decide)
  exact ⟨h.1, h.2.1, h.2.2.2.2⟩

/-- C4: `notify` on the wildcard identifier is rejected with the
invalid-argument error; `can_trigger_notification` returns false exactly on
the wildcard identifier (this holds for every notifier, in particular the
base Event Notifier); and `notify` on any other event type is not
rejected. -/
theorem C4_wildcard_trigger (n : Notifier) (env : Env) (d : Details) :
    n.notify env ANY d = .error ()
    ∧ (∀ e, n.can_trigger_notification e = false ↔ e = ANY)
    ∧ (∀ e, e ≠ ANY → ∃ r, n.notify env e d = .ok r) := by
  have hc : ∀ e, n.can_trigger_notification e = false ↔ e = ANY := by
    intro e
    unfold Notifier.can_trigger_notification
    by_cases he : e = ANY
    · simp [he, DISALLOWED_NOTIFICATION_EVENTS]
    · have hne : e ≠ "*" := by simpa [ANY] using he
      simp [DISALLOWED_NOTIFICATION_EVENTS, ANY, hne]
  refine ⟨?_, hc, ?_⟩
  · unfold Notifier.notify
    rw [(hc ANY).mpr rfl]
    simp
  · intro e he
    have ht : n.can_trigger_notification e = true := by
      rcases Bool.eq_false_or_eq_true (n.can_trigger_notification e) with hb | hb
      · exact hb
      · exact absurd ((hc e).mp hb) he
    refine ⟨do_dispatch env (n.dispatch_snapshot e) d, ?_⟩
    unfold Notifier.notify
    simp [ht]

/-- Witness for C4: the non-wildcard event `"boom"` on a concrete notifier
is not rejected. -/
theorem C4_wildcard_trigger_witness :
    wNotifier.notify wEnv ANY [] = .error ()
    ∧ (∃ r, wNotifier.notify wEnv "boom" [] = .ok r) := by
  have h := C4_wildcard_trigger wNotifier wEnv []
  exact ⟨h.1, h.2.2 "boom" (by decide)⟩

/-- C3: `register` raises the invalid-argument error exactly when the
callback is not callable, a provided details filter is not callable, or the
event type is not permitted by `can_be_registered`; absent those it raises
the reserved-key error when the fixed kwargs contain the key `details`;
absent those it raises the duplicate error when an equivalent (resolved
callback, details filter) listener is already registered under that exact
event type; and otherwise it succeeds, appending a new listener to the
event's sequence and returning it.  In particular a successful registration
leaves other event types available (the same callback can then be
registered under a different event type) and a different details filter
makes a non-equivalent pair (the same callback can be registered again
under the same event with a different filter). -/
theorem C3_register_contract (n : Notifier) (e : String) (cb : CbArg)
    (args : List String) (kwargs : List (String × String)) (df : Option CbArg)
    (w : Bool) (u : Nat) :
    (n.register e cb args kwargs df w u = .error .invalidArg ↔
      (cb.callable = false ∨ (∃ f, df = some f ∧ f.callable = false)
        ∨ n.can_be_registered e = false))
    ∧ (n.register e cb args kwargs df w u = .error .reservedKey ↔
      (cb.callable = true ∧ (∀ f, df = some f → f.callable = true)
        ∧ n.can_be_registered e = true
        ∧ kwargs.any (fun p => p.1 == "details") = true))
    ∧ (n.register e cb args kwargs df w u = .error .duplicate ↔
      (cb.callable = true ∧ (∀ f, df = some f → f.callable = true)
        ∧ n.can_be_registered e = true
        ∧ kwargs.any (fun p => p.1 == "details") = false
        ∧ n.is_registered e (some cb.id) (df.map (fun f => f.id)) = true))
    ∧ (cb.callable = true → (∀ f, df = some f → f.callable = true) →
        n.can_be_registered e = true →
        kwargs.any (fun p => p.1 == "details") = false →
        n.is_registered e (some cb.id) (df.map (fun f => f.id)) = false →
        ∃ l n2, n.register e cb args kwargs df w u = .ok (l, n2)
          ∧ topics_get n2.topics e = topics_get n.topics e ++ [l])
    ∧ (∀ l n2 e2 u2, n.register e cb args kwargs df w u = .ok (l, n2) →
        e2 ≠ e → n.can_be_registered e2 = true →
        n.is_registered e2 (some cb.id) (df.map (fun f => f.id)) = false →
        ∃ l2 n3, n2.register e2 cb args kwargs df w u2 = .ok (l2, n3))
    ∧ (∀ f1 f2 l n2 u2,
        n.register e cb args kwargs (some f1) w u = .ok (l, n2) →
        f2.callable = true → f1.id ≠ f2.id →
        n.is_registered e (some cb.id) (some f2.id) = false →
        ∃ l2 n3, n2.register e cb args kwargs (some f2) w u2 = .ok (l2, n3)) := by
  refine ⟨register_invalidArg_iff n e cb args kwargs df w u,
    register_reservedKey_iff n e cb args kwargs df w u,
    register_duplicate_iff n e cb args kwargs df w u, ?_, ?_, ?_⟩
  · intro h1 h2 h3 h4 h5
    refine ⟨mk_listener e cb args kwargs df w u, _,
      register_ok_eq n e cb args kwargs df w u h1 h2 h3 h4 h5, ?_⟩
    exact topics_get_setdefault_append_self n.topics e
      (mk_listener e cb args kwargs df w u)
  · intro l n2 e2 u2 hreg hne hc2 hr2
    obtain ⟨h1, h2, -, h4, -, -, hn⟩ :=
      register_ok_inv n e cb args kwargs df w u l n2 hreg
    have hc2b : n2.can_be_registered e2 = true := by rw [hn]; exact hc2
    have hr2b :
        n2.is_registered e2 (some cb.id) (df.map (fun f => f.id)) = false := by
      rw [hn]
      show (topics_get (topics_setdefault_append n.topics e l) e2).any
        (fun x => x.is_equivalent (some cb.id) (df.map (fun f => f.id))) = false
      rw [topics_get_setdefault_append_other n.topics e e2 l hne]
      exact hr2
    exact ⟨_, _, register_ok_eq n2 e2 cb args kwargs df w u2 h1 h2 hc2b h4 hr2b⟩
  · intro f1 f2 l n2 u2 hreg hf2 hid hr2
    obtain ⟨h1, -, h3, h4, -, hl, hn⟩ :=
      register_ok_inv n e cb args kwargs (some f1) w u l n2 hreg
    have h2b : ∀ f, (some f2 : Option CbArg) = some f → f.callable = true := by
      intro f hf
      rw [Option.some.injEq] at hf
      rw [← hf]
      exact hf2
    have hc3 : n2.can_be_registered e = true := by rw [hn]; exact h3
    have hidb : (f1.id == f2.id) = false := beq_eq_false_iff_ne.mpr hid
    have hr2b :
        n2.is_registered e (some cb.id) ((some f2).map (fun f => f.id)) = false := by
      rw [hn]
      show (topics_get (topics_setdefault_append n.topics e l) e).any
        (fun x => x.is_equivalent (some cb.id) (some f2.id)) = false
      rw [topics_get_setdefault_append_self, List.any_append]
      have ha : (topics_get n.topics e).any
          (fun x => x.is_equivalent (some cb.id) (some f2.id)) = false := hr2
      have hb : ([l].any
          (fun x => x.is_equivalent (some cb.id) (some f2.id))) = false := by
        rw [hl]
        simp [mk_listener, Listener.is_equivalent, Listener.callback,
          Listener.filters_equivalent, is_same_callback, hidb]
      rw [ha, hb]
      rfl
    exact ⟨_, _,
      register_ok_eq n2 e cb args kwargs (some f2) w u2 h1 h2b hc3 h4 hr2b⟩

/-- Witness for C3: concrete invalid-argument, duplicate, success,
second-event and second-filter cases. -/
theorem C3_register_contract_witness :
    wNotifier.register "boom" wCbBad [] [] none false 3 = .error .invalidArg
    ∧ wN1.register "boom" wCbGood [] [] none false 4 = .error .duplicate
    ∧ (∃ l n2, wNotifier.register "boom" wCbGood [] [] none false 10 = .ok (l, n2)
        ∧ topics_get n2.topics "boom" = topics_get wNotifier.topics "boom" ++ [l])
    ∧ (∃ l2 n3, wN1.register "evt2" wCbGood [] [] none false 5 = .ok (l2, n3))
    ∧ (∃ l2 n3,
        wNF1.register "boom" wCbGood [] [] (some wFilt2) false 6 = .ok (l2, n3)) := by
  refine ⟨?_, ?_, ?_, ?_, ?_⟩
  · exact (C3_register_contract wNotifier "boom" wCbBad [] [] none false 3).1.mpr
      (Or.inl rfl)
  · exact (C3_register_contract wN1 "boom" wCbGood [] [] none false 4).2.2.1.mpr
      ⟨rfl, fun f hf => Option.noConfusion hf, rfl, rfl, by decide⟩
  · exact (C3_register_contract wNotifier "boom" wCbGood [] [] none false
      10).2.2.2.1 rfl (fun f hf => Option.noConfusion hf) rfl rfl rfl
  · exact (C3_register_contract wNotifier "boom" wCbGood [] [] none false
      10).2.2.2.2.1 wL1 wN1 "evt2" 5 rfl (by decide) rfl rfl
  · exact (C3_register_contract wNotifier "boom" wCbGood [] [] none false
      10).2.2.2.2.2 wFilt wFilt2 wLF1 wNF1 6 rfl rfl (by decide) rfl

/-- C5: for a live listener, the callback is invoked during dispatch if and
only if it has no details filter or the filter returns a truthy value on the
notification payload; and for a permitted event `notify` dispatches the
snapshot, each listener contributing exactly its own call outcome, so when
the snapshot is a single filtered listener the number of callbacks invoked
is 1 when the filter accepts the payload and 0 when it rejects it. -/
theorem C5_details_filter_gates (env : Env) (l : Listener) (d : Details)
    (c : Nat) (halive : l.cb = some c) :
    (∀ f, l.details_filter = some f →
      ((l.call env d).invoked = true ↔ env.filt f d = true))
    ∧ (l.details_filter = none → (l.call env d).invoked = true)
    ∧ (∀ (n : Notifier) (e : String), n.can_trigger_notification e = true →
        n.notify env e d = .ok (do_dispatch env (n.dispatch_snapshot e) d))
    ∧ (∀ (n : Notifier) (e : String), n.dispatch_snapshot e = [l] →
        ∀ f, l.details_filter = some f →
        (dispatch_outcomes env (n.dispatch_snapshot e) d).countP
            (fun o => o.invoked)
          = if env.filt f d = true then 1 else 0) := by
  refine ⟨?_, ?_, ?_, ?_⟩
  · intro f hf
    by_cases hfd : env.filt f d = true
    · by_cases hco : env.cbOk c d = true <;>
        simp [Listener.call, Listener.callback, halive, hf, hfd, hco,
          CallOutcome.invoked]
    · have hfd0 : env.filt f d = false := by simpa using hfd
      simp [Listener.call, Listener.callback, halive, hf, hfd0,
        CallOutcome.invoked]
  · intro hf
    by_cases hco : env.cbOk c d = true <;>
      simp [Listener.call, Listener.callback, halive, hf, hco,
        CallOutcome.invoked]
  · intro n e ht
    unfold Notifier.notify
    simp [ht]
  · intro n e hsnap f hf
    rw [hsnap]
    by_cases hfd : env.filt f d = true
    · by_cases hco : env.cbOk c d = true <;>
        simp [dispatch_outcomes, List.countP_cons, Listener.call,
          Listener.callback, halive, hf, hfd, hco, CallOutcome.invoked]
    · have hfd0 : env.filt f d = false := by simpa using hfd
      simp [dispatch_outcomes, List.countP_cons, Listener.call,
        Listener.callback, halive, hf, hfd0, CallOutcome.invoked]

/-- Witness for C5: filter 5 under `wEnv` rejects the empty payload and
accepts `[("color", "red")]`; the filtered listener fires exactly on the
non-empty payload. -/
theorem C5_details_filter_gates_witness :
    ((wLFiltered.call wEnv [("color", "red")]).invoked = true
      ↔ wEnv.filt 5 [("color", "red")] = true)
    ∧ ((dispatch_outcomes wEnv (wNFiltered.dispatch_snapshot "evt")
          [("color", "red")]).countP (fun o => o.invoked) = 1)
    ∧ ((dispatch_outcomes wEnv (wNFiltered.dispatch_snapshot "evt")
          []).countP (fun o => o.invoked) = 0) := by
  have h1 := C5_details_filter_gates wEnv wLFiltered [("color", "red")] 3 rfl
  have h2 := C5_details_filter_gates wEnv wLFiltered [] 3 rfl
  refine ⟨h1.1 5 rfl, ?_, ?_⟩
  · rw [h1.2.2.2 wNFiltered "evt" rfl 5 rfl]
    decide
  · rw [h2.2.2.2 wNFiltered "evt" rfl 5 rfl]
    decide

/-- C6: when no equivalent listener exists under `event_type`, `deregister`
returns false and leaves the entire notifier state unchanged;
`deregister_event` on an event with no listeners returns 0 and changes no
other event's sequence; `deregister_by_uuid` with an unknown uuid returns
false and leaves the notifier unchanged.  None of them signals an error. -/
theorem C6_deregister_no_match (n : Notifier) (e : String) :
    (∀ callback df, n.is_registered e callback df = false →
      n.deregister e callback df = (false, n))
    ∧ (topics_get n.topics e = [] →
        (n.deregister_event e).1 = 0
        ∧ (∀ e2, e2 ≠ e →
            topics_get (n.deregister_event e).2.topics e2
              = topics_get n.topics e2))
    ∧ (∀ u, (∀ l, l ∈ topics_get n.topics e → l.uuid ≠ u) →
        n.deregister_by_uuid e u = (false, n)) := by
  refine ⟨?_, ?_, ?_⟩
  · intro callback df h
    unfold Notifier.deregister
    rw [remove_first_equiv_eq_none (topics_get n.topics e) callback df h]
  · intro h
    refine ⟨?_, ?_⟩
    · show (topics_get n.topics e).length = 0
      rw [h]
      rfl
    · intro e2 hne
      show topics_get (topics_pop n.topics e) e2 = topics_get n.topics e2
      exact topics_get_pop_other n.topics e e2 hne
  · intro u h
    unfold Notifier.deregister_by_uuid
    rw [remove_first_uuid_eq_none (topics_get n.topics e) u h]

/-- Witness for C6: a never-registered callback, an empty event and an
unknown uuid on a concrete one-listener notifier. -/
theorem C6_deregister_no_match_witness :
    wN1.deregister "boom" (some 99) none = (false, wN1)
    ∧ (wN1.deregister_event "other").1 = 0
    ∧ wN1.deregister_by_uuid "boom" 999 = (false, wN1) := by
  have h := C6_deregister_no_match wN1 "boom"
  have h2 := C6_deregister_no_match wN1 "other"
  exact ⟨h.1 (some 99) none (by decide), (h2.2.1 (by decide)).1,
    h.2.2 999 (by decide)⟩

/-- C7: for a Restricted Notifier over allow-list `w` with allow-wildcard
flag `a`, `can_be_registered e` is true exactly when `e ∈ w`, or `e` is the
wildcard and `a` is true; consequently — given a callable callback, a
callable filter, clean kwargs and no existing duplicate — `register` on an
event outside the allow-list fails with the invalid-argument error,
`register` on an event inside the allow-list succeeds, and (when the
allow-list does not itself list the wildcard token) wildcard registration
succeeds exactly when `a` is true. -/
theorem C7_restricted_allowlist (w : List String) (a : Bool) (t : Topics)
    (lid eid : Nat) :
    (∀ e, (Notifier.mk (.restricted w a) t lid eid).can_be_registered e = true
      ↔ (e ∈ w ∨ (e = ANY ∧ a = true)))
    ∧ (∀ e cb args kwargs df wk u, cb.callable = true →
        (∀ f, df = some f → f.callable = true) →
        ¬ e ∈ w → ¬(e = ANY ∧ a = true) →
        (Notifier.mk (.restricted w a) t lid eid).register e cb args kwargs df wk u
          = .error .invalidArg)
    ∧ (∀ e cb args kwargs df wk u, cb.callable = true →
        (∀ f, df = some f → f.callable = true) →
        kwargs.any (fun p => p.1 == "details") = false →
        (Notifier.mk (.restricted w a) t lid eid).is_registered e (some cb.id)
          (df.map (fun f => f.id)) = false →
        e ∈ w →
        ∃ l n2, (Notifier.mk (.restricted w a) t lid eid).register
          e cb args kwargs df wk u = .ok (l, n2))
    ∧ (∀ cb args kwargs df wk u, cb.callable = true →
        (∀ f, df = some f → f.callable = true) →
        kwargs.any (fun p => p.1 == "details") = false →
        (Notifier.mk (.restricted w a) t lid eid).is_registered ANY (some cb.id)
          (df.map (fun f => f.id)) = false →
        ¬ ANY ∈ w →
        ((∃ l n2, (Notifier.mk (.restricted w a) t lid eid).register
            ANY cb args kwargs df wk u = .ok (l, n2))
          ↔ a = true)) := by
  have hcan : ∀ e, (Notifier.mk (.restricted w a) t lid eid).can_be_registered e
      = (w.contains e || (e == ANY && a)) := fun e => rfl
  refine ⟨?_, ?_, ?_, ?_⟩
  · intro e
    rw [hcan]
    simp [ANY, List.contains_iff_exists_mem_beq]
  · intro e cb args kwargs df wk u h1 h2 hmem hany
    have hc1 : w.contains e = false := by simp [hmem]
    have hc2 : (e == ANY && a) = false := by
      by_cases he : e = ANY
      · have ha : a = false := by
          rcases Bool.eq_false_or_eq_true a with hb | hb
          · exact absurd ⟨he, hb⟩ hany
          · exact hb
        simp [he, ha]
      · simp [beq_eq_false_iff_ne.mpr he]
    apply (register_invalidArg_iff _ e cb args kwargs df wk u).mpr
    refine Or.inr (Or.inr ?_)
    rw [hcan, hc1, hc2]
    rfl
  · intro e cb args kwargs df wk u h1 h2 h4 h5 hmem
    have hc : (Notifier.mk (.restricted w a) t lid eid).can_be_registered e = true := by
      rw [hcan]
      simp [hmem]
    exact ⟨_, _, register_ok_eq _ e cb args kwargs df wk u h1 h2 hc h4 h5⟩
  · intro cb args kwargs df wk u h1 h2 h4 h5 hmem
    constructor
    · rintro ⟨l, n2, hok⟩
      obtain ⟨-, -, hc, -, -, -, -⟩ :=
        register_ok_inv _ ANY cb args kwargs df wk u l n2 hok
      rw [hcan] at hc
      have hc1 : w.contains ANY = false := by simp [hmem]
      rw [hc1] at hc
      simpa using hc
    · intro ha
      have hc : (Notifier.mk (.restricted w a) t lid eid).can_be_registered ANY
          = true := by
        rw [hcan, ha]
        simp
      exact ⟨_, _, register_ok_eq _ ANY cb args kwargs df wk u h1 h2 hc h4 h5⟩

/-- Witness for C7: the allow-list `["a", "b"]`: registering on `"c"` fails,
on `"b"` succeeds, on the wildcard succeeds with `allow_any = true` and
fails with `allow_any = false`. -/
theorem C7_restricted_allowlist_witness :
    wRestr.register "c" wCbGood [] [] none false 1 = .error .invalidArg
    ∧ (∃ l n2, wRestr.register "b" wCbGood [] [] none false 2 = .ok (l, n2))
    ∧ (∃ l n2, wRestr.register ANY wCbGood [] [] none false 3 = .ok (l, n2))
    ∧ ¬(∃ l n2, wRestrNoAny.register ANY wCbGood [] [] none false 4 = .ok (l, n2)) := by
  have ht := C7_restricted_allowlist ["a", "b"] true [] 0 0
  have hf := C7_restricted_allowlist ["a", "b"] false [] 0 0
  refine ⟨?_, ?_, ?_, ?_⟩
  · exact ht.2.1 "c" wCbGood [] [] none false 1 rfl
      (fun f hff => Option.noConfusion hff) (by decide) (by decide)
  · exact ht.2.2.1 "b" wCbGood [] [] none false 2 rfl
      (fun f hff => Option.noConfusion hff) rfl rfl (by decide)
  · exact (ht.2.2.2 wCbGood [] [] none false 3 rfl
      (fun f hff => Option.noConfusion hff) rfl rfl (by decide)).mpr rfl
  · intro hcon
    have := (hf.2.2.2 wCbGood [] [] none false 4 rfl
      (fun f hff => Option.noConfusion hff) rfl rfl (by decide)).mp hcon
    exact Bool.noConfusion this

/-- C8: reconstructing a notifier from its captured state preserves the
whole event→listener mapping and the restricted-notifier data (so every
listener stays findable under the same event, by uuid or by equivalent
callback), while capturing ignores the lock and executor tokens and
reconstruction installs the freshly supplied ones. -/
theorem C8_state_roundtrip (n : Notifier) (fl fe : Nat) :
    (Notifier.setstate (n.getstate) fl fe).topics = n.topics
    ∧ (Notifier.setstate (n.getstate) fl fe).kind = n.kind
    ∧ (Notifier.setstate (n.getstate) fl fe).lockId = fl
    ∧ (Notifier.setstate (n.getstate) fl fe).executorId = fe
    ∧ (∀ la lb, Notifier.getstate { n with lockId := la, executorId := lb }
        = n.getstate)
    ∧ (∀ e, topics_get (Notifier.setstate (n.getstate) fl fe).topics e
        = topics_get n.topics e)
    ∧ (∀ e cb df, (Notifier.setstate (n.getstate) fl fe).is_registered e cb df
        = n.is_registered e cb df) := by
  obtain ⟨k, tp, lid, eid⟩ := n
  cases k <;>
    simp [Notifier.getstate, Notifier.setstate, Notifier.is_registered]

/-- C9: the scoped-registration helper: with a `none` callback it performs
no registration of its own and simply runs the wrapped block, returning its
outcome; with a callback it registers before the block (the block observes
the pair as registered) and deregisters that same (callback, details
filter) pair on every exit path of the block — the final state is the
deregistration of the block's final state whether the block returned
normally or raised — and when the block leaves the notifier as it found it,
no event retains any residual registration from the scope. -/
theorem C9_register_deregister_scope {E : Type} (n : Notifier) (e : String)
    (args : List String) (kwargs : List (String × String)) (df : Option CbArg)
    (w : Bool) (u : Nat) (body : Notifier → Except E Unit × Notifier) :
    (register_deregister n e none args kwargs df w u body
      = ((body n).1.mapError Sum.inr, (body n).2))
    ∧ (∀ cb l n1, n.register e cb args kwargs df w u = .ok (l, n1) →
        n1.is_registered e (some cb.id) (df.map (fun f => f.id)) = true
        ∧ register_deregister n e (some cb) args kwargs df w u body
          = ((body n1).1.mapError Sum.inr,
             ((body n1).2.deregister e (some cb.id) (df.map (fun f => f.id))).2))
    ∧ (∀ cb l n1 r, n.register e cb args kwargs df w u = .ok (l, n1) →
        body n1 = (r, n1) →
        ∀ ev, topics_get (register_deregister n e (some cb) args kwargs
            df w u body).2.topics ev = topics_get n.topics ev) := by
  refine ⟨rfl, ?_, ?_⟩
  · intro cb l n1 hreg
    obtain ⟨h1, h2, h3, h4, h5, hl, hn⟩ :=
      register_ok_inv n e cb args kwargs df w u l n1 hreg
    constructor
    · rw [hn]
      show (topics_get (topics_setdefault_append n.topics e l) e).any
        (fun x => x.is_equivalent (some cb.id) (df.map (fun f => f.id))) = true
      rw [topics_get_setdefault_append_self, List.any_append, hl]
      simp [mk_listener_equivalent]
    · simp only [register_deregister]
      rw [hreg]
  · intro cb l n1 r hreg hbody ev
    obtain ⟨h1, h2, h3, h4, h5, hl, hn⟩ :=
      register_ok_inv n e cb args kwargs df w u l n1 hreg
    have hequiv : l.is_equivalent (some cb.id) (df.map (fun f => f.id)) = true := by
      rw [hl]
      exact mk_listener_equivalent e cb args kwargs df w u
    have hget : topics_get n1.topics e = topics_get n.topics e ++ [l] := by
      rw [hn]
      exact topics_get_setdefault_append_self n.topics e l
    have hrem : listeners_remove_first_equiv (topics_get n1.topics e)
        (some cb.id) (df.map (fun f => f.id))
        = some (topics_get n.topics e) := by
      rw [hget]
      exact remove_first_equiv_append _ l _ _ h5 hequiv
    have hde : n1.deregister e (some cb.id) (df.map (fun f => f.id))
        = (true, { n1 with
            topics := (topics_set n1.topics e (topics_get n.topics e)) }) := by
      unfold Notifier.deregister
      rw [hrem]
    have hrd : register_deregister n e (some cb) args kwargs df w u body
        = ((body n1).1.mapError Sum.inr,
           ((body n1).2.deregister e (some cb.id) (df.map (fun f => f.id))).2) := by
      simp only [register_deregister]
      rw [hreg]
    rw [hrd, hbody]
    show topics_get ((n1.deregister e (some cb.id)
      (df.map (fun f => f.id))).2).topics ev = _
    rw [hde]
    show topics_get (topics_set n1.topics e (topics_get n.topics e)) ev = _
    by_cases hev : ev = e
    · subst hev
      rw [topics_get_set_self]
      have hhas : topics_has n1.topics ev = true := by
        rw [hn]
        exact topics_has_setdefault_append_self n.topics ev l
      rw [hhas]
      simp
    · rw [topics_get_set_other n1.topics e ev _ hev, hn]
      exact topics_get_setdefault_append_other n.topics e ev l hev

/-- Witness for C9: a no-op block; with a `none` callback the helper is a
pure pass-through, and with a real callback the registry is back to its
original listener sequences afterwards. -/
theorem C9_register_deregister_scope_witness :
    register_deregister wNotifier "boom" (none : Option CbArg) [] [] none false 10
        (fun m => ((.ok () : Except Unit Unit), m))
      = (.ok (), wNotifier)
    ∧ (∀ ev, topics_get (register_deregister wNotifier "boom" (some wCbGood)
          [] [] none false 10
          (fun m => ((.ok () : Except Unit Unit), m))).2.topics ev
        = topics_get wNotifier.topics ev) := by
  have h := C9_register_deregister_scope wNotifier "boom" [] [] none false 10
    (fun m => ((.ok () : Except Unit Unit), m))
  refine ⟨?_, ?_⟩
  · rw [h.1]
    rfl
  · intro ev
    exact h.2.2 wCbGood wL1 wN1 (.ok ()) rfl rfl ev

/-- C10 (amended): during dispatch, a dead listener or one whose details
filter rejects the payload is skipped without invoking its callback, yet it
is included in the reported total and counted as a success, never as a
failure; consequently the success count need not equal the number of
callbacks actually invoked — it exceeds the number of successful
invocations by the number of skipped listeners. -/
theorem C10_skipped_counted_as_success (env : Env) (listeners : List Listener)
    (d : Details) :
    (do_dispatch env listeners d).total = listeners.length
    ∧ (do_dispatch env listeners d).failures
        = (dispatch_outcomes env listeners d).countP (fun o => o == .raised)
    ∧ (do_dispatch env listeners d).successes
        = (dispatch_outcomes env listeners d).countP (fun o => o == .ok)
          + (dispatch_outcomes env listeners d).countP (fun o => !o.invoked)
    ∧ (∀ (l : Listener), l ∈ listeners → l.cb = none → l.call env d = .dead)
    ∧ (∀ (l : Listener) (f : Nat), l.details_filter = some f →
        env.filt f d = false →
        (l.call env d).invoked = false ∧ l.call env d ≠ .raised)
    ∧ ((dispatch_outcomes env listeners d).countP (fun o => !o.invoked) > 0 →
        (do_dispatch env listeners d).successes
          > (dispatch_outcomes env listeners d).countP (fun o => o == .ok)) := by
  have hlen : (dispatch_outcomes env listeners d).length = listeners.length := by
    simp [dispatch_outcomes]
  have hs : (do_dispatch env listeners d).successes
      = (dispatch_outcomes env listeners d).countP (fun o => o == .ok)
        + (dispatch_outcomes env listeners d).countP (fun o => !o.invoked) := by
    show listeners.length - _ = _
    rw [← hlen, length_sub_raised, countP_not_raised_split]
  refine ⟨rfl, rfl, hs, ?_, ?_, ?_⟩
  · intro l hm hcb
    simp [Listener.call, Listener.callback, hcb]
  · intro l f hf hfd
    cases hcb : l.cb with
    | none =>
      simp [Listener.call, Listener.callback, hcb, CallOutcome.invoked]
    | some c =>
      simp [Listener.call, Listener.callback, hcb, hf, hfd,
        CallOutcome.invoked]
  · intro hpos
    rw [hs]
    omega

/-- Witness for C10 (amended): a dead listener and a live listener whose
filter rejects the empty payload are both skipped without their callbacks
being invoked, both are included in the total, and the success count
strictly exceeds the number of successful invocations. -/
theorem C10_skipped_counted_as_success_witness :
    (do_dispatch wEnv [wDead, wLFiltered] []).total = 2
    ∧ (wLFiltered.call wEnv []).invoked = false
    ∧ (do_dispatch wEnv [wDead, wLFiltered] []).successes
        > (dispatch_outcomes wEnv [wDead, wLFiltered] []).countP
            (fun o => o == .ok) := by
  have h := C10_skipped_counted_as_success wEnv [wDead, wLFiltered] []
  exact ⟨h.1, (h.2.2.2.2.1 wLFiltered 5 rfl (by decide)).1,
    h.2.2.2.2.2 (by decide)⟩

/-- Counterexample to C10 as stated: dispatching the snapshot
`[wDead, wRaise]` skips the dead listener (one listener is skipped, not
invoked) yet the success count (1) equals the number of callbacks actually
invoked (1, the raising listener) — refuting "the success count does not
equal the number of callbacks actually invoked". -/
theorem C10_success_eq_invoked_counterexample :
    wDead.call wEnv [] = .dead
    ∧ (dispatch_outcomes wEnv [wDead, wRaise] []).countP (fun o => !o.invoked) = 1
    ∧ (do_dispatch wEnv [wDead, wRaise] []).successes
        = (dispatch_outcomes wEnv [wDead, wRaise] []).countP
            (fun o => o.invoked) := by
  refine ⟨rfl, by decide, by decide⟩
